import Mathlib

/-!
# The `service` command of the cf CLI (`command/v2/service_command.go`)

A shallow embedding of `ServiceCommand.Execute` and of its two helpers
`displayServiceInstanceGUID` and `displayServiceInstanceSummary`.

The command talks to four collaborators through Go interfaces
(`command.SharedActor`, `command.Config`, `ServiceActor`, `command.UI`).
Each collaborator is embedded the way the unit test drives it: a stub that
fixes what a method returns, and a log that records, in order, every call the
command makes.  `Execute` is then a function from the command value to the
returned error and the log of calls.
-/

set_option autoImplicit false
set_option linter.dupNamespace false

namespace cf

/-! ## Data model -/

namespace configv3

/-- The targeted organization, `configv3.Organization` (only the field the command reads). -/
structure Organization where
  Name : String
  deriving DecidableEq, Repr

/-- The targeted space, `configv3.Space`. -/
structure Space where
  GUID : String
  Name : String
  deriving DecidableEq, Repr

/-- The current user, `configv3.User`. -/
structure User where
  Name : String
  deriving DecidableEq, Repr

end configv3

namespace ccv2

/-- The Go type `ccv2.ServiceInstanceType` is a string type. -/
abbrev ServiceInstanceType := String

/-- Modelled from the spec: the constant `ccv2.ManagedService` (package
`api/cloudcontroller/ccv2` is not part of the sources at hand); the data model
names it as one of the two values of `Type`. -/
def ManagedService : ServiceInstanceType := "managed_service_instance"

/-- Modelled from the spec: the constant `ccv2.UserProvidedService` (package
`api/cloudcontroller/ccv2` is not part of the sources at hand); the second of
the two values of `Type` in the data model. -/
def UserProvidedService : ServiceInstanceType := "user_provided_service_instance"

/-- The service instance record `ccv2.ServiceInstance`, with the fields the
command and its test use. -/
structure ServiceInstance where
  GUID : String
  Name : String
  «Type» : ServiceInstanceType
  Tags : List String
  DashboardURL : String
  deriving DecidableEq, Repr

/-- Modelled from the spec: the method `ccv2.ServiceInstance.Managed` (package
`api/cloudcontroller/ccv2` is not part of the sources at hand).  The presenter
decides the layout on `Type` alone: managed means `Type` is the managed type. -/
def ServiceInstance.Managed (serviceInstance : ServiceInstance) : Bool :=
  serviceInstance.«Type» == ManagedService

end ccv2

namespace v2action

/-- The Go type `v2action.Warnings`: an ordered list of strings. -/
abbrev Warnings := List String

/-- The Go type `v2action.ServiceInstance` is declared as `ccv2.ServiceInstance`. -/
abbrev ServiceInstance := ccv2.ServiceInstance

/-- The record `v2action.ServicePlan` (the field the command reads). -/
structure ServicePlan where
  Name : String
  deriving DecidableEq, Repr

/-- The record `v2action.Service` (the fields the command reads). -/
structure Service where
  Label : String
  Description : String
  DocumentationURL : String
  deriving DecidableEq, Repr

/-- The record `v2action.ServiceInstanceSummary`: the instance (embedded in Go,
a named field here) with its plan, its service and the bound applications. -/
structure ServiceInstanceSummary where
  ServiceInstance : ServiceInstance
  ServicePlan : ServicePlan
  Service : Service
  BoundApplications : List String
  deriving DecidableEq, Repr

/-- The Go field promotion `summary.Name`. -/
def ServiceInstanceSummary.Name (s : ServiceInstanceSummary) : String :=
  s.ServiceInstance.Name

/-- The Go field promotion `summary.Tags`. -/
def ServiceInstanceSummary.Tags (s : ServiceInstanceSummary) : List String :=
  s.ServiceInstance.Tags

/-- The Go field promotion `summary.DashboardURL`. -/
def ServiceInstanceSummary.DashboardURL (s : ServiceInstanceSummary) : String :=
  s.ServiceInstance.DashboardURL

/-- The actor error `v2action.ServiceInstanceNotFoundError`. -/
structure ServiceInstanceNotFoundError where
  GUID : String
  Name : String
  deriving DecidableEq, Repr

end v2action

namespace sharedaction

/-- The actor error `sharedaction.NotLoggedInError`. -/
structure NotLoggedInError where
  BinaryName : String
  deriving DecidableEq, Repr

end sharedaction

namespace translatableerror

/-- The user-facing error `translatableerror.NotLoggedInError`. -/
structure NotLoggedInError where
  BinaryName : String
  deriving DecidableEq, Repr

/-- The user-facing error `translatableerror.ServiceInstanceNotFoundError`. -/
structure ServiceInstanceNotFoundError where
  GUID : String
  Name : String
  deriving DecidableEq, Repr

end translatableerror

/-- A Go `error` value, by dynamic type: a plain `errors.New` error, one of the
actor errors, or one of the user-facing errors.  The session errors "no org
targeted" and "no space targeted" carry no field that the sources at hand show. -/
inductive error where
  | errorString (s : String)
  | sharedNotLoggedIn (e : sharedaction.NotLoggedInError)
  | sharedNoOrganizationTargeted
  | sharedNoSpaceTargeted
  | v2ServiceInstanceNotFound (e : v2action.ServiceInstanceNotFoundError)
  | translatableNotLoggedIn (e : translatableerror.NotLoggedInError)
  | translatableNoOrganizationTargeted
  | translatableNoSpaceTargeted
  | translatableServiceInstanceNotFound (e : translatableerror.ServiceInstanceNotFoundError)
  deriving DecidableEq, Repr

namespace errors

/-- The Go constructor `errors.New`. -/
def New (text : String) : error := error.errorString text

end errors

/-- The message of an error, Go's `Error()`, for the plain errors the test
matches by message; the other messages are produced outside the sources at hand. -/
def error.Error : error → Option String
  | .errorString s => some s
  | _ => none

/-- Modelled from the spec: the errors that `shared.HandleError` (not part of
the sources at hand) translates: the session errors and the not-found error of
a service instance.  Every other error is generic for the translation. -/
def error.isActorError : error → Bool
  | .sharedNotLoggedIn _ => true
  | .sharedNoOrganizationTargeted => true
  | .sharedNoSpaceTargeted => true
  | .v2ServiceInstanceNotFound _ => true
  | _ => false

namespace shared

/-- Modelled from the spec: the function `shared.HandleError` (package
`command/v2/shared` is not part of the sources at hand).  Session errors (not
logged in, no org, no space) and the not-found error of a service instance are
translated into their user-facing counterparts, carrying the same fields;
every other error is passed on as it is. -/
def HandleError : error → error
  | .sharedNotLoggedIn e => .translatableNotLoggedIn ⟨e.BinaryName⟩
  | .sharedNoOrganizationTargeted => .translatableNoOrganizationTargeted
  | .sharedNoSpaceTargeted => .translatableNoSpaceTargeted
  | .v2ServiceInstanceNotFound e => .translatableServiceInstanceNotFound ⟨e.GUID, e.Name⟩
  | e => e

end shared

namespace strings

/-- The Go function `strings.Join`: the elements, with `sep` between neighbours. -/
def Join : List String → String → String
  | [], _ => ""
  | [a], _ => a
  | a :: b :: rest, sep => a ++ sep ++ Join (b :: rest) sep

end strings

/-! ## Collaborators and the log of calls -/

/-- One call of the command on a collaborator, with its arguments. -/
inductive Call where
  | CheckTarget (targetedOrganizationRequired targetedSpaceRequired : Bool)
  | CurrentUser
  | GetServiceInstanceByNameAndSpace (name spaceGUID : String)
  | GetServiceInstanceSummaryByNameAndSpace (name spaceGUID : String)
  | DisplayTextWithFlavor (template : String) (templateValues : List (String × String))
  | DisplayNewline
  | DisplayWarnings (warnings : List String)
  | DisplayText (template : String)
  | DisplayKeyValueTable (pre : String) (table : List (List String)) (padding : Int)
  deriving DecidableEq, Repr

/-- A computation of the command: it reads and extends the log of calls. -/
abbrev Run := StateM (List Call)

/-- Append one call to the log. -/
def record (c : Call) : Run Unit :=
  modify fun log => log ++ [c]

/-- The interface `command.SharedActor`, stubbed. -/
structure SharedActor where
  CheckTargetStub : Bool → Bool → Option error

/-- The interface `command.Config`, stubbed (the methods the command calls). -/
structure Config where
  CurrentUserStub : configv3.User × Option error
  TargetedOrganization : configv3.Organization
  TargetedSpace : configv3.Space

/-- The interface `ServiceActor` of `service_command.go`, stubbed. -/
structure ServiceActor where
  GetServiceInstanceByNameAndSpaceStub :
    String → String → v2action.ServiceInstance × v2action.Warnings × Option error
  GetServiceInstanceSummaryByNameAndSpaceStub :
    String → String → v2action.ServiceInstanceSummary × v2action.Warnings × Option error

/-- The interface `command.UI`: the display methods are recorded in the log,
`TranslateText` is the locale's translation of a text. -/
structure UI where
  TranslateText : String → String

/-- The call `SharedActor.CheckTarget`. -/
def SharedActor.CheckTarget (a : SharedActor) (targetedOrganizationRequired targetedSpaceRequired : Bool) :
    Run (Option error) := do
  record (.CheckTarget targetedOrganizationRequired targetedSpaceRequired)
  pure (a.CheckTargetStub targetedOrganizationRequired targetedSpaceRequired)

/-- The call `Config.CurrentUser`. -/
def Config.CurrentUser (c : Config) : Run (configv3.User × Option error) := do
  record .CurrentUser
  pure c.CurrentUserStub

/-- The call `ServiceActor.GetServiceInstanceByNameAndSpace`. -/
def ServiceActor.GetServiceInstanceByNameAndSpace (a : ServiceActor) (name spaceGUID : String) :
    Run (v2action.ServiceInstance × v2action.Warnings × Option error) := do
  record (.GetServiceInstanceByNameAndSpace name spaceGUID)
  pure (a.GetServiceInstanceByNameAndSpaceStub name spaceGUID)

/-- The call `ServiceActor.GetServiceInstanceSummaryByNameAndSpace`. -/
def ServiceActor.GetServiceInstanceSummaryByNameAndSpace (a : ServiceActor) (name spaceGUID : String) :
    Run (v2action.ServiceInstanceSummary × v2action.Warnings × Option error) := do
  record (.GetServiceInstanceSummaryByNameAndSpace name spaceGUID)
  pure (a.GetServiceInstanceSummaryByNameAndSpaceStub name spaceGUID)

/-- The call `UI.DisplayTextWithFlavor`. -/
def UI.DisplayTextWithFlavor (_ : UI) (template : String) (templateValues : List (String × String)) :
    Run Unit :=
  record (.DisplayTextWithFlavor template templateValues)

/-- The call `UI.DisplayNewline`. -/
def UI.DisplayNewline (_ : UI) : Run Unit :=
  record .DisplayNewline

/-- The call `UI.DisplayWarnings`. -/
def UI.DisplayWarnings (_ : UI) (warnings : List String) : Run Unit :=
  record (.DisplayWarnings warnings)

/-- The call `UI.DisplayText`. -/
def UI.DisplayText (_ : UI) (template : String) : Run Unit :=
  record (.DisplayText template)

/-- The call `UI.DisplayKeyValueTable`. -/
def UI.DisplayKeyValueTable (_ : UI) (pre : String) (table : List (List String)) (padding : Int) :
    Run Unit :=
  record (.DisplayKeyValueTable pre table padding)

/-! ## The command -/

namespace flag

/-- The positional argument `flag.ServiceInstance`. -/
structure ServiceInstance where
  ServiceInstance : String
  deriving DecidableEq, Repr

end flag

/-- The struct `ServiceCommand`. -/
structure ServiceCommand where
  RequiredArgs : flag.ServiceInstance
  GUID : Bool
  UI : UI
  Config : Config
  SharedActor : SharedActor
  Actor : ServiceActor

/-- The helper `ServiceCommand.displayServiceInstanceGUID`. -/
def ServiceCommand.displayServiceInstanceGUID (cmd : ServiceCommand) : Run (Option error) := do
  let (serviceInstance, warnings, err) ←
    cmd.Actor.GetServiceInstanceByNameAndSpace cmd.RequiredArgs.ServiceInstance cmd.Config.TargetedSpace.GUID
  cmd.UI.DisplayWarnings warnings
  match err with
  | some err => return some (shared.HandleError err)
  | none =>
    cmd.UI.DisplayText serviceInstance.GUID
    return none

/-- The helper `ServiceCommand.displayServiceInstanceSummary`. -/
def ServiceCommand.displayServiceInstanceSummary (cmd : ServiceCommand) : Run (Option error) := do
  let (serviceInstanceSummary, warnings, err) ←
    cmd.Actor.GetServiceInstanceSummaryByNameAndSpace cmd.RequiredArgs.ServiceInstance cmd.Config.TargetedSpace.GUID
  cmd.UI.DisplayWarnings warnings
  match err with
  | some err => return some (shared.HandleError err)
  | none =>
    let serviceInstanceName := serviceInstanceSummary.Name
    let boundApps := strings.Join serviceInstanceSummary.BoundApplications ", "
    let table : List (List String) :=
      if ccv2.ServiceInstance.Managed serviceInstanceSummary.ServiceInstance then
        [ [cmd.UI.TranslateText "name:", serviceInstanceName],
          [cmd.UI.TranslateText "service:", serviceInstanceSummary.Service.Label],
          [cmd.UI.TranslateText "bound apps:", boundApps],
          [cmd.UI.TranslateText "tags:", strings.Join serviceInstanceSummary.Tags ", "],
          [cmd.UI.TranslateText "plan:", serviceInstanceSummary.ServicePlan.Name],
          [cmd.UI.TranslateText "description:", serviceInstanceSummary.Service.Description],
          [cmd.UI.TranslateText "documentation:", serviceInstanceSummary.Service.DocumentationURL],
          [cmd.UI.TranslateText "dashboard:", serviceInstanceSummary.DashboardURL] ]
      else
        [ [cmd.UI.TranslateText "name:", serviceInstanceName],
          [cmd.UI.TranslateText "service:", cmd.UI.TranslateText "user-provided"],
          [cmd.UI.TranslateText "bound apps:", boundApps] ]
    cmd.UI.DisplayKeyValueTable "" table 3
    return none

/-- The method `ServiceCommand.Execute`.  Its parameter `args` is never read by
the source and is left out; `nil` is `none`. -/
def ServiceCommand.Execute (cmd : ServiceCommand) : Run (Option error) := do
  match ← cmd.SharedActor.CheckTarget true true with
  | some err => return some (shared.HandleError err)
  | none =>
    let (user, err) ← cmd.Config.CurrentUser
    match err with
    | some err => return some (shared.HandleError err)
    | none =>
      cmd.UI.DisplayTextWithFlavor
        "Showing info of service {{.ServiceInstanceName}} in org {{.OrgName}} / space {{.SpaceName}} as {{.UserName}}..."
        [ ("ServiceInstanceName", cmd.RequiredArgs.ServiceInstance),
          ("OrgName", cmd.Config.TargetedOrganization.Name),
          ("SpaceName", cmd.Config.TargetedSpace.Name),
          ("UserName", user.Name) ]
      cmd.UI.DisplayNewline
      if cmd.GUID then
        cmd.displayServiceInstanceGUID
      else
        cmd.displayServiceInstanceSummary

/-- Run `Execute` from an empty log: the returned error and the log of calls. -/
def ServiceCommand.run (cmd : ServiceCommand) : Option error × List Call :=
  cmd.Execute []

/-! ## Reading the log -/

/-- The calls that are one of the two queries of `ServiceActor`. -/
def Call.isQuery : Call → Bool
  | .GetServiceInstanceByNameAndSpace _ _ => true
  | .GetServiceInstanceSummaryByNameAndSpace _ _ => true
  | _ => false

/-- The calls that are a by-name lookup `GetServiceInstanceByNameAndSpace`. -/
def Call.isByNameLookup : Call → Bool
  | .GetServiceInstanceByNameAndSpace _ _ => true
  | _ => false

/-- The calls that are a summary lookup `GetServiceInstanceSummaryByNameAndSpace`. -/
def Call.isSummaryLookup : Call → Bool
  | .GetServiceInstanceSummaryByNameAndSpace _ _ => true
  | _ => false

/-- The calls on the UI that display something. -/
def Call.isUI : Call → Bool
  | .DisplayTextWithFlavor _ _ => true
  | .DisplayNewline => true
  | .DisplayWarnings _ => true
  | .DisplayText _ => true
  | .DisplayKeyValueTable _ _ _ => true
  | _ => false

/-- The calls `UI.DisplayWarnings`. -/
def Call.isDisplayWarnings : Call → Bool
  | .DisplayWarnings _ => true
  | _ => false

/-- The calls that display the result of a query: the GUID (`DisplayText`) or
the table (`DisplayKeyValueTable`). -/
def Call.isResultDisplay : Call → Bool
  | .DisplayText _ => true
  | .DisplayKeyValueTable _ _ _ => true
  | _ => false

/-- The calls `UI.DisplayKeyValueTable`. -/
def Call.isTable : Call → Bool
  | .DisplayKeyValueTable _ _ _ => true
  | _ => false

/-- The table of a call of `UI.DisplayKeyValueTable`. -/
def Call.table? : Call → Option (List (List String))
  | .DisplayKeyValueTable _ table _ => some table
  | _ => none

/-- The tables passed to `UI.DisplayKeyValueTable`, in the order of the calls. -/
def displayedTables (log : List Call) : List (List (List String)) :=
  log.filterMap Call.table?

/-- The labels of a table: the first cell of every row. -/
def rowLabels (table : List (List String)) : List (Option String) :=
  table.map List.head?

/-- The labels (before translation) of the rows that only the managed layout has. -/
def managedOnlyLabels : List String :=
  ["tags:", "plan:", "description:", "documentation:", "dashboard:"]

/-- Modelled from the spec: the sink of a UI call (package `util/ui` is not
part of the sources at hand).  Warnings go to the error sink; the status line,
the blank line, the GUID and the table are the command's output. -/
def Call.writesOut : Call → Bool
  | .DisplayTextWithFlavor _ _ => true
  | .DisplayNewline => true
  | .DisplayText _ => true
  | .DisplayKeyValueTable _ _ _ => true
  | _ => false

namespace ui

/-- Modelled from the spec: the value that the template values give to `key`
(package `util/ui` is not part of the sources at hand); a key without a value
is rendered the way Go's `text/template` renders it. -/
def lookup (key : String) : List (String × String) → String
  | [] => "<no value>"
  | (k, v) :: rest => if k = key then v else lookup key rest

/-- Modelled from the spec: interpolation over characters (package `util/ui`
is not part of the sources at hand).  The first argument of the scan is `none`
outside a placeholder and `some key` inside one, with the characters of the
key read so far. -/
def interpolateChars (templateValues : List (String × String)) :
    Option (List Char) → List Char → List Char
  | none, [] => []
  | some key, [] => '{' :: '{' :: '.' :: key
  | none, '{' :: '{' :: '.' :: rest => interpolateChars templateValues (some []) rest
  | none, c :: rest => c :: interpolateChars templateValues none rest
  | some key, '}' :: '}' :: rest =>
      (lookup (String.mk key) templateValues).data ++ interpolateChars templateValues none rest
  | some key, c :: rest => interpolateChars templateValues (some (key ++ [c])) rest

/-- Modelled from the spec: the text of a status line (package `util/ui` is not
part of the sources at hand): the template with every placeholder `{{.Key}}`
replaced by the value that the template values give to `Key`. -/
def interpolate (template : String) (templateValues : List (String × String)) : String :=
  String.mk (interpolateChars templateValues none template.data)

end ui

/-! ## The log of every path through `Execute` -/

/-- The status line call of `Execute`, as it is written in the source. -/
def statusCall (cmd : ServiceCommand) (user : configv3.User) : Call :=
  .DisplayTextWithFlavor
    "Showing info of service {{.ServiceInstanceName}} in org {{.OrgName}} / space {{.SpaceName}} as {{.UserName}}..."
    [ ("ServiceInstanceName", cmd.RequiredArgs.ServiceInstance),
      ("OrgName", cmd.Config.TargetedOrganization.Name),
      ("SpaceName", cmd.Config.TargetedSpace.Name),
      ("UserName", user.Name) ]

/-- The calls `Execute` has made when it reaches the branch on `--guid`. -/
def preamble (cmd : ServiceCommand) (user : configv3.User) : List Call :=
  [Call.CheckTarget true true, Call.CurrentUser, statusCall cmd user, Call.DisplayNewline]

/-- The value of the variable `table` when `displayServiceInstanceSummary`
reaches `DisplayKeyValueTable`, as a function of the summary the query returned. -/
def tableOf (ui : UI) (summary : v2action.ServiceInstanceSummary) : List (List String) :=
  if ccv2.ServiceInstance.Managed summary.ServiceInstance then
    [ [ui.TranslateText "name:", summary.Name],
      [ui.TranslateText "service:", summary.Service.Label],
      [ui.TranslateText "bound apps:", strings.Join summary.BoundApplications ", "],
      [ui.TranslateText "tags:", strings.Join summary.Tags ", "],
      [ui.TranslateText "plan:", summary.ServicePlan.Name],
      [ui.TranslateText "description:", summary.Service.Description],
      [ui.TranslateText "documentation:", summary.Service.DocumentationURL],
      [ui.TranslateText "dashboard:", summary.DashboardURL] ]
  else
    [ [ui.TranslateText "name:", summary.Name],
      [ui.TranslateText "service:", ui.TranslateText "user-provided"],
      [ui.TranslateText "bound apps:", strings.Join summary.BoundApplications ", "] ]

/-- The warnings and the error of the query that `Execute` invokes: the by-name
lookup under `--guid`, the summary lookup otherwise, both at the arguments of
the source. -/
def queryOutcome (cmd : ServiceCommand) : v2action.Warnings × Option error :=
  if cmd.GUID then
    (cmd.Actor.GetServiceInstanceByNameAndSpaceStub cmd.RequiredArgs.ServiceInstance
      cmd.Config.TargetedSpace.GUID).2
  else
    (cmd.Actor.GetServiceInstanceSummaryByNameAndSpaceStub cmd.RequiredArgs.ServiceInstance
      cmd.Config.TargetedSpace.GUID).2

/-! ## The texts written to the output -/

namespace strings

/-- The Go function `strings.Contains` over characters: `sub` starts at some
position of the text. -/
def containsChars : List Char → List Char → Bool
  | [], sub => sub.isPrefixOf []
  | c :: rest, sub => sub.isPrefixOf (c :: rest) || containsChars rest sub

/-- The Go function `strings.Contains`. -/
def Contains (s substr : String) : Bool :=
  containsChars s.data substr.data

end strings

/-- Modelled from the spec: the texts that a UI call writes to the output
(package `util/ui` is not part of the sources at hand): the status line with
its values substituted, an empty line, the text of `DisplayText`, the cells of
a table row by row.  Warnings go to the error sink and the calls on the other
collaborators write nothing. -/
def Call.outTexts : Call → List String
  | .DisplayTextWithFlavor template templateValues => [ui.interpolate template templateValues]
  | .DisplayNewline => [""]
  | .DisplayText template => [template]
  | .DisplayKeyValueTable _ table _ => table.flatten
  | _ => []

/-- The texts written to the output by the calls of a log, in order. -/
def writtenTexts (log : List Call) : List String :=
  (log.map Call.outTexts).flatten

/-! ## Fixtures of the unit test -/

namespace fixture

/-- The fake config of the test: org `some-org`, space `some-space`. -/
def fakeConfig (currentUser : configv3.User × Option error) : Config :=
  { CurrentUserStub := currentUser
    TargetedOrganization := { Name := "some-org" }
    TargetedSpace := { GUID := "some-space-guid", Name := "some-space" } }

/-- The zero value `v2action.ServiceInstance{}`. -/
def zeroServiceInstance : v2action.ServiceInstance :=
  { GUID := "", Name := "", «Type» := "", Tags := [], DashboardURL := "" }

/-- The zero value `v2action.ServiceInstanceSummary{}`. -/
def zeroSummary : v2action.ServiceInstanceSummary :=
  { ServiceInstance := zeroServiceInstance
    ServicePlan := { Name := "" }
    Service := { Label := "", Description := "", DocumentationURL := "" }
    BoundApplications := [] }

/-- The fake actor of the test: both queries return what they are told to. -/
def fakeActor
    (byName : v2action.ServiceInstance × v2action.Warnings × Option error)
    (summary : v2action.ServiceInstanceSummary × v2action.Warnings × Option error) : ServiceActor :=
  { GetServiceInstanceByNameAndSpaceStub := fun _ _ => byName
    GetServiceInstanceSummaryByNameAndSpaceStub := fun _ _ => summary }

/-- The command of the test, for instance `some-service-instance`, with the
test UI (texts are not translated). -/
def command (guid : Bool) (checkTarget : Option error)
    (currentUser : configv3.User × Option error)
    (byName : v2action.ServiceInstance × v2action.Warnings × Option error)
    (summary : v2action.ServiceInstanceSummary × v2action.Warnings × Option error) :
    ServiceCommand :=
  { RequiredArgs := { ServiceInstance := "some-service-instance" }
    GUID := guid
    UI := { TranslateText := id }
    Config := fakeConfig currentUser
    SharedActor := { CheckTargetStub := fun _ _ => checkTarget }
    Actor := fakeActor byName summary }

/-- A fake query result that is never looked at. -/
def unusedByName : v2action.ServiceInstance × v2action.Warnings × Option error :=
  (zeroServiceInstance, [], none)

/-- A fake query result that is never looked at. -/
def unusedSummary : v2action.ServiceInstanceSummary × v2action.Warnings × Option error :=
  (zeroSummary, [], none)

/-- The test context "when an error is encountered checking if the environment
is setup correctly". -/
def notLoggedIn (guid : Bool) : ServiceCommand :=
  command guid (some (error.sharedNotLoggedIn { BinaryName := "faceman" }))
    ({ Name := "" }, none) unusedByName unusedSummary

/-- The user of the test context "when getting the current user succeeds". -/
def someUser : configv3.User × Option error :=
  ({ Name := "some-user" }, none)

/-- The test context `--guid`, "when the service instance does not exist". -/
def guidNotFound : ServiceCommand :=
  command true none someUser
    (zeroServiceInstance, ["get-service-instance-warning"],
      some (error.v2ServiceInstanceNotFound
        { GUID := "non-existant-service-instance-guid", Name := "non-existant-service-instance" }))
    unusedSummary

/-- The test context `--guid`, "when an error is encountered getting the service instance". -/
def guidError : ServiceCommand :=
  command true none someUser
    (zeroServiceInstance, ["get-service-instance-warning"],
      some (errors.New "get-service-instance-error"))
    unusedSummary

/-- The test context `--guid`, "when no errors are encountered getting the service instance". -/
def guidFound : ServiceCommand :=
  command true none someUser
    ({ zeroServiceInstance with GUID := "some-service-instance-guid", Name := "some-service-instance" },
      ["get-service-instance-warning"], none)
    unusedSummary

/-- The test context without `--guid`, "when the service instance does not exist". -/
def summaryNotFound : ServiceCommand :=
  command false none someUser unusedByName
    (zeroSummary, ["get-service-instance-summary-warning"],
      some (error.v2ServiceInstanceNotFound
        { GUID := "non-existant-service-instance-guid", Name := "non-existant-service-instance" }))

/-- The test context without `--guid`, "when an error is encountered getting the
service instance summary". -/
def summaryError : ServiceCommand :=
  command false none someUser unusedByName
    (zeroSummary, ["get-service-instance-summary-warning"],
      some (errors.New "get-service-instance-summary-error"))

/-- The summary of the test context "when the service instance is a managed
service instance". -/
def managedSummary : v2action.ServiceInstanceSummary :=
  { ServiceInstance :=
      { GUID := "", Name := "some-service-instance", «Type» := ccv2.ManagedService,
        Tags := ["tag-1", "tag-2", "tag-3"], DashboardURL := "some-dashboard" }
    ServicePlan := { Name := "some-plan" }
    Service :=
      { Label := "some-service", Description := "some-description",
        DocumentationURL := "some-docs-url" }
    BoundApplications := ["app-1", "app-2", "app-3"] }

/-- The test context "when the service instance is a managed service instance". -/
def managed : ServiceCommand :=
  command false none someUser unusedByName
    (managedSummary,
      ["get-service-instance-summary-warning-1", "get-service-instance-summary-warning-2"], none)

/-- The summary of the test context "when the service instance is an user
provided service instance". -/
def userProvidedSummary : v2action.ServiceInstanceSummary :=
  { zeroSummary with
    ServiceInstance :=
      { zeroServiceInstance with
        Name := "some-service-instance", «Type» := ccv2.UserProvidedService }
    BoundApplications := ["app-1", "app-2", "app-3"] }

/-- The test context "when the service instance is an user provided service instance". -/
def userProvided : ServiceCommand :=
  command false none someUser unusedByName
    (userProvidedSummary,
      ["get-service-instance-summary-warning-1", "get-service-instance-summary-warning-2"], none)

/-- The test context "when getting the current user fails". -/
def currentUserFails : ServiceCommand :=
  command false none ({ Name := "" }, some (errors.New "get-user-error")) unusedByName unusedSummary

/-- A current-user lookup that fails with an actor error. -/
def currentUserNotLoggedIn : ServiceCommand :=
  command false none
    ({ Name := "" }, some (error.sharedNotLoggedIn { BinaryName := "faceman" }))
    unusedByName unusedSummary

/-- A summary lookup that returns the zero value `v2action.ServiceInstanceSummary{}`
without error: its `Type` is the empty string. -/
def zeroValue : ServiceCommand :=
  command false none someUser unusedByName (zeroSummary, [], none)

/-- A managed summary in which every field that may be absent is absent. -/
def bareManagedSummary : v2action.ServiceInstanceSummary :=
  { zeroSummary with
    ServiceInstance :=
      { zeroServiceInstance with
        Name := "some-service-instance", «Type» := ccv2.ManagedService } }

/-- A summary lookup that returns `bareManagedSummary` without error. -/
def bareManaged : ServiceCommand :=
  command false none someUser unusedByName (bareManagedSummary, [], none)

/-- A user-provided summary whose other fields are all filled in. -/
def filledUserProvidedSummary : v2action.ServiceInstanceSummary :=
  { managedSummary with
    ServiceInstance :=
      { managedSummary.ServiceInstance with
        Name := "other-service-instance", «Type» := ccv2.UserProvidedService } }

/-- A summary lookup that returns `filledUserProvidedSummary` without error. -/
def filledUserProvided : ServiceCommand :=
  command false none someUser unusedByName (filledUserProvidedSummary, [], none)

end fixture

/-! ## Lemmas: the result of `Execute` on each path -/

theorem run_checkTarget_error (cmd : ServiceCommand) (e : error)
    (h : cmd.SharedActor.CheckTargetStub true true = some e) :
    cmd.run = (some (shared.HandleError e), [Call.CheckTarget true true]) := by
  simp [ServiceCommand.run, ServiceCommand.Execute, SharedActor.CheckTarget, record, h,
    bind, StateT.bind, modify, modifyGet, MonadStateOf.modifyGet, StateT.modifyGet, pure, StateT.pure]

theorem run_currentUser_error (cmd : ServiceCommand) (user : configv3.User) (e : error)
    (hTarget : cmd.SharedActor.CheckTargetStub true true = none)
    (hUser : cmd.Config.CurrentUserStub = (user, some e)) :
    cmd.run = (some (shared.HandleError e), [Call.CheckTarget true true, Call.CurrentUser]) := by
  simp [ServiceCommand.run, ServiceCommand.Execute, SharedActor.CheckTarget, Config.CurrentUser,
    record, hTarget, hUser, bind, StateT.bind, modify, modifyGet, MonadStateOf.modifyGet,
    StateT.modifyGet, pure, StateT.pure]

theorem run_guid (cmd : ServiceCommand) (user : configv3.User)
    (serviceInstance : v2action.ServiceInstance) (warnings : v2action.Warnings) (err : Option error)
    (hTarget : cmd.SharedActor.CheckTargetStub true true = none)
    (hUser : cmd.Config.CurrentUserStub = (user, none))
    (hGUID : cmd.GUID = true)
    (hQuery : cmd.Actor.GetServiceInstanceByNameAndSpaceStub cmd.RequiredArgs.ServiceInstance
      cmd.Config.TargetedSpace.GUID = (serviceInstance, warnings, err)) :
    cmd.run =
      (err.map shared.HandleError,
        preamble cmd user ++
          [Call.GetServiceInstanceByNameAndSpace cmd.RequiredArgs.ServiceInstance
              cmd.Config.TargetedSpace.GUID,
            Call.DisplayWarnings warnings] ++
          (if err.isNone then [Call.DisplayText serviceInstance.GUID] else [])) := by
  cases err <;>
  simp [ServiceCommand.run, ServiceCommand.Execute, ServiceCommand.displayServiceInstanceGUID,
    SharedActor.CheckTarget, Config.CurrentUser, ServiceActor.GetServiceInstanceByNameAndSpace,
    UI.DisplayTextWithFlavor, UI.DisplayNewline, UI.DisplayWarnings, UI.DisplayText,
    record, hTarget, hUser, hGUID, hQuery, preamble, statusCall, bind, StateT.bind, modify,
    modifyGet, MonadStateOf.modifyGet, StateT.modifyGet, pure, StateT.pure]

theorem run_summary (cmd : ServiceCommand) (user : configv3.User)
    (summary : v2action.ServiceInstanceSummary) (warnings : v2action.Warnings) (err : Option error)
    (hTarget : cmd.SharedActor.CheckTargetStub true true = none)
    (hUser : cmd.Config.CurrentUserStub = (user, none))
    (hGUID : cmd.GUID = false)
    (hQuery : cmd.Actor.GetServiceInstanceSummaryByNameAndSpaceStub cmd.RequiredArgs.ServiceInstance
      cmd.Config.TargetedSpace.GUID = (summary, warnings, err)) :
    cmd.run =
      (err.map shared.HandleError,
        preamble cmd user ++
          [Call.GetServiceInstanceSummaryByNameAndSpace cmd.RequiredArgs.ServiceInstance
              cmd.Config.TargetedSpace.GUID,
            Call.DisplayWarnings warnings] ++
          (if err.isNone then [Call.DisplayKeyValueTable "" (tableOf cmd.UI summary) 3] else [])) := by
  cases err <;>
  simp [ServiceCommand.run, ServiceCommand.Execute, ServiceCommand.displayServiceInstanceSummary,
    SharedActor.CheckTarget, Config.CurrentUser, ServiceActor.GetServiceInstanceSummaryByNameAndSpace,
    UI.DisplayTextWithFlavor, UI.DisplayNewline, UI.DisplayWarnings, UI.DisplayKeyValueTable,
    record, hTarget, hUser, hGUID, hQuery, preamble, statusCall, tableOf, bind, StateT.bind, modify,
    modifyGet, MonadStateOf.modifyGet, StateT.modifyGet, pure, StateT.pure]

theorem interpolate_status (n o s u : String) :
    ui.interpolate
        "Showing info of service {{.ServiceInstanceName}} in org {{.OrgName}} / space {{.SpaceName}} as {{.UserName}}..."
        [("ServiceInstanceName", n), ("OrgName", o), ("SpaceName", s), ("UserName", u)] =
      "Showing info of service " ++ n ++ " in org " ++ o ++ " / space " ++ s ++ " as " ++ u ++ "..." := by
  apply String.ext
  simp only [String.data_append, List.append_assoc, List.cons_append, List.nil_append, String.data]
  rfl

theorem run_query_result (cmd : ServiceCommand)
    (hTarget : cmd.SharedActor.CheckTargetStub true true = none)
    (hUser : cmd.Config.CurrentUserStub.2 = none) :
    cmd.run.1 = (queryOutcome cmd).2.map shared.HandleError := by
  obtain ⟨user, hUser⟩ : ∃ user, cmd.Config.CurrentUserStub = (user, none) :=
    ⟨cmd.Config.CurrentUserStub.1, Prod.ext rfl hUser⟩
  cases hGUID : cmd.GUID
  · obtain ⟨⟨summary, warnings, err⟩, hQuery⟩ :
        ∃ r, cmd.Actor.GetServiceInstanceSummaryByNameAndSpaceStub cmd.RequiredArgs.ServiceInstance
          cmd.Config.TargetedSpace.GUID = r := ⟨_, rfl⟩
    rw [run_summary cmd user summary warnings err hTarget hUser hGUID hQuery]
    simp [queryOutcome, hGUID, hQuery]
  · obtain ⟨⟨serviceInstance, warnings, err⟩, hQuery⟩ :
        ∃ r, cmd.Actor.GetServiceInstanceByNameAndSpaceStub cmd.RequiredArgs.ServiceInstance
          cmd.Config.TargetedSpace.GUID = r := ⟨_, rfl⟩
    rw [run_guid cmd user serviceInstance warnings err hTarget hUser hGUID hQuery]
    simp [queryOutcome, hGUID, hQuery]

theorem HandleError_of_not_actor (e : error) (h : e.isActorError = false) :
    shared.HandleError e = e := by
  cases e <;> simp_all [shared.HandleError, error.isActorError]

/-! ## The claims -/

/-- C1: when `SharedActor.CheckTarget` returns an error `e`, `Execute` returns
the translation `shared.HandleError e`, the log holds no call of either query
and no call of a UI display method (the only call made is the target check
itself, asking for org and space); a `sharedaction.NotLoggedInError` for binary
`b` is translated to the `translatableerror.NotLoggedInError` for `b`. -/
theorem Execute_target_error (cmd : ServiceCommand) (e : error)
    (hTarget : cmd.SharedActor.CheckTargetStub true true = some e) :
    cmd.run.1 = some (shared.HandleError e) ∧
      cmd.run.2 = [Call.CheckTarget true true] ∧
      (∀ c ∈ cmd.run.2, c.isQuery = false) ∧
      (∀ c ∈ cmd.run.2, c.isUI = false) ∧
      (∀ b : String,
        shared.HandleError (error.sharedNotLoggedIn { BinaryName := b }) =
          error.translatableNotLoggedIn { BinaryName := b }) := by
  rw [run_checkTarget_error cmd e hTarget]
  refine ⟨rfl, rfl, ?_, ?_, fun _ => rfl⟩ <;> simp [Call.isQuery, Call.isUI]

theorem Execute_target_error_witness :
    (fixture.notLoggedIn true).SharedActor.CheckTargetStub true true =
        some (error.sharedNotLoggedIn { BinaryName := "faceman" }) ∧
      (fixture.notLoggedIn true).run =
        (some (error.translatableNotLoggedIn { BinaryName := "faceman" }), [Call.CheckTarget true true]) :=
  ⟨rfl, Prod.ext
    ((Execute_target_error (fixture.notLoggedIn true)
      (error.sharedNotLoggedIn { BinaryName := "faceman" }) rfl).1)
    ((Execute_target_error (fixture.notLoggedIn true)
      (error.sharedNotLoggedIn { BinaryName := "faceman" }) rfl).2.1)⟩

/-- C2: when the target check and the current-user lookup succeed, the log of
`Execute` holds exactly one query call: under `--guid` one call of
`GetServiceInstanceByNameAndSpace` and none of the summary lookup, without
`--guid` one call of `GetServiceInstanceSummaryByNameAndSpace` and none of the
by-name lookup, whatever the stubbed queries return. -/
theorem Execute_one_query (cmd : ServiceCommand)
    (hTarget : cmd.SharedActor.CheckTargetStub true true = none)
    (hUser : cmd.Config.CurrentUserStub.2 = none) :
    cmd.run.2.countP Call.isQuery = 1 ∧
      (cmd.GUID = true →
        cmd.run.2.countP Call.isByNameLookup = 1 ∧ cmd.run.2.countP Call.isSummaryLookup = 0) ∧
      (cmd.GUID = false →
        cmd.run.2.countP Call.isSummaryLookup = 1 ∧ cmd.run.2.countP Call.isByNameLookup = 0) := by
  obtain ⟨user, hUser⟩ : ∃ user, cmd.Config.CurrentUserStub = (user, none) :=
    ⟨cmd.Config.CurrentUserStub.1, Prod.ext rfl hUser⟩
  cases hGUID : cmd.GUID
  · obtain ⟨⟨summary, warnings, err⟩, hQuery⟩ :
        ∃ r, cmd.Actor.GetServiceInstanceSummaryByNameAndSpaceStub cmd.RequiredArgs.ServiceInstance
          cmd.Config.TargetedSpace.GUID = r := ⟨_, rfl⟩
    rw [run_summary cmd user summary warnings err hTarget hUser hGUID hQuery]
    cases err <;>
      simp [preamble, statusCall, List.countP_cons, Call.isQuery, Call.isByNameLookup,
        Call.isSummaryLookup]
  · obtain ⟨⟨serviceInstance, warnings, err⟩, hQuery⟩ :
        ∃ r, cmd.Actor.GetServiceInstanceByNameAndSpaceStub cmd.RequiredArgs.ServiceInstance
          cmd.Config.TargetedSpace.GUID = r := ⟨_, rfl⟩
    rw [run_guid cmd user serviceInstance warnings err hTarget hUser hGUID hQuery]
    cases err <;>
      simp [preamble, statusCall, List.countP_cons, Call.isQuery, Call.isByNameLookup,
        Call.isSummaryLookup]

theorem Execute_one_query_witness :
    fixture.guidFound.SharedActor.CheckTargetStub true true = none ∧
      fixture.guidFound.Config.CurrentUserStub.2 = none ∧
      fixture.guidFound.run.2.countP Call.isQuery = 1 ∧
      fixture.guidFound.run.2.countP Call.isByNameLookup = 1 ∧
      fixture.guidFound.run.2.countP Call.isSummaryLookup = 0 :=
  ⟨rfl, rfl, (Execute_one_query fixture.guidFound rfl rfl).1,
    (Execute_one_query fixture.guidFound rfl rfl).2.1 rfl⟩

/-- C3: when the target check and the current-user lookup succeed, on either
path the log of `Execute` holds `DisplayWarnings w` exactly once, `w` being the
warnings the invoked query returned.  It comes right after the query call, no
GUID or table has been displayed before it, and what follows is the single
display of the result when the query succeeded, and nothing when it failed with
`e`, in which case `Execute` returns the translation of `e`. -/
theorem Execute_warnings_displayed (cmd : ServiceCommand)
    (hTarget : cmd.SharedActor.CheckTargetStub true true = none)
    (hUser : cmd.Config.CurrentUserStub.2 = none) :
    ∃ before after : List Call,
      cmd.run.2 = before ++ Call.DisplayWarnings (queryOutcome cmd).1 :: after ∧
        (∀ c ∈ before, c.isDisplayWarnings = false ∧ c.isResultDisplay = false) ∧
        (∃ q, before.getLast? = some q ∧ q.isQuery = true) ∧
        (∀ c ∈ after, c.isDisplayWarnings = false) ∧
        ((queryOutcome cmd).2 = none →
          cmd.run.1 = none ∧ ∃ d, after = [d] ∧ d.isResultDisplay = true) ∧
        (∀ e, (queryOutcome cmd).2 = some e →
          after = [] ∧ cmd.run.1 = some (shared.HandleError e)) := by
  obtain ⟨user, hUser⟩ : ∃ user, cmd.Config.CurrentUserStub = (user, none) :=
    ⟨cmd.Config.CurrentUserStub.1, Prod.ext rfl hUser⟩
  cases hGUID : cmd.GUID
  · obtain ⟨⟨summary, warnings, err⟩, hQuery⟩ :
        ∃ r, cmd.Actor.GetServiceInstanceSummaryByNameAndSpaceStub cmd.RequiredArgs.ServiceInstance
          cmd.Config.TargetedSpace.GUID = r := ⟨_, rfl⟩
    rw [run_summary cmd user summary warnings err hTarget hUser hGUID hQuery]
    refine ⟨preamble cmd user ++
      [Call.GetServiceInstanceSummaryByNameAndSpace cmd.RequiredArgs.ServiceInstance
        cmd.Config.TargetedSpace.GUID],
      if err.isNone then [Call.DisplayKeyValueTable "" (tableOf cmd.UI summary) 3] else [],
      ?_, ?_, ⟨_, List.getLast?_concat _, rfl⟩, ?_, ?_, ?_⟩
    · simp [queryOutcome, hGUID, hQuery]
    · simp [preamble, statusCall, Call.isDisplayWarnings, Call.isResultDisplay]
    · cases err <;> simp [Call.isDisplayWarnings]
    · cases err <;> simp [queryOutcome, hGUID, hQuery, Call.isResultDisplay]
    · cases err <;> simp [queryOutcome, hGUID, hQuery]
  · obtain ⟨⟨serviceInstance, warnings, err⟩, hQuery⟩ :
        ∃ r, cmd.Actor.GetServiceInstanceByNameAndSpaceStub cmd.RequiredArgs.ServiceInstance
          cmd.Config.TargetedSpace.GUID = r := ⟨_, rfl⟩
    rw [run_guid cmd user serviceInstance warnings err hTarget hUser hGUID hQuery]
    refine ⟨preamble cmd user ++
      [Call.GetServiceInstanceByNameAndSpace cmd.RequiredArgs.ServiceInstance
        cmd.Config.TargetedSpace.GUID],
      if err.isNone then [Call.DisplayText serviceInstance.GUID] else [],
      ?_, ?_, ⟨_, List.getLast?_concat _, rfl⟩, ?_, ?_, ?_⟩
    · simp [queryOutcome, hGUID, hQuery]
    · simp [preamble, statusCall, Call.isDisplayWarnings, Call.isResultDisplay]
    · cases err <;> simp [Call.isDisplayWarnings]
    · cases err <;> simp [queryOutcome, hGUID, hQuery, Call.isResultDisplay]
    · cases err <;> simp [queryOutcome, hGUID, hQuery]

theorem Execute_warnings_displayed_witness :
    fixture.guidNotFound.SharedActor.CheckTargetStub true true = none ∧
      fixture.guidNotFound.Config.CurrentUserStub.2 = none ∧
      ∃ before after : List Call,
        fixture.guidNotFound.run.2 =
            before ++ Call.DisplayWarnings ["get-service-instance-warning"] :: after ∧
          after = [] ∧
          fixture.guidNotFound.run.1 =
            some (error.translatableServiceInstanceNotFound
              { GUID := "non-existant-service-instance-guid",
                Name := "non-existant-service-instance" }) :=
  ⟨rfl, rfl, by
    obtain ⟨before, after, hLog, _, _, _, _, hFail⟩ :=
      Execute_warnings_displayed fixture.guidNotFound rfl rfl
    exact ⟨before, after, hLog, hFail _ rfl⟩⟩

theorem displayedTables_summary (cmd : ServiceCommand) (summary : v2action.ServiceInstanceSummary)
    (warnings : v2action.Warnings)
    (hTarget : cmd.SharedActor.CheckTargetStub true true = none)
    (hUser : cmd.Config.CurrentUserStub.2 = none)
    (hGUID : cmd.GUID = false)
    (hQuery : cmd.Actor.GetServiceInstanceSummaryByNameAndSpaceStub cmd.RequiredArgs.ServiceInstance
      cmd.Config.TargetedSpace.GUID = (summary, warnings, none)) :
    cmd.run.1 = none ∧ displayedTables cmd.run.2 = [tableOf cmd.UI summary] := by
  obtain ⟨user, hUser⟩ : ∃ user, cmd.Config.CurrentUserStub = (user, none) :=
    ⟨cmd.Config.CurrentUserStub.1, Prod.ext rfl hUser⟩
  rw [run_summary cmd user summary warnings none hTarget hUser hGUID hQuery]
  simp [displayedTables, preamble, statusCall, Call.table?, List.filterMap_cons]

/-- C4: when the summary lookup returns, without error, a summary whose `Type`
is the managed type, `Execute` succeeds and passes exactly one table to
`DisplayKeyValueTable`, of 8 rows in this order: name, service label, bound
apps joined by ", ", tags joined by ", ", plan name, description, documentation
URL, dashboard URL.  Each label is the UI's translation of the label text, so
in a locale that leaves texts as they are the labels are `name:`, `service:`,
`bound apps:`, `tags:`, `plan:`, `description:`, `documentation:`,
`dashboard:`.  Tags `tag-1`, `tag-2`, `tag-3` join to `tag-1, tag-2, tag-3`. -/
theorem Execute_managed_table (cmd : ServiceCommand) (summary : v2action.ServiceInstanceSummary)
    (warnings : v2action.Warnings)
    (hTarget : cmd.SharedActor.CheckTargetStub true true = none)
    (hUser : cmd.Config.CurrentUserStub.2 = none)
    (hGUID : cmd.GUID = false)
    (hQuery : cmd.Actor.GetServiceInstanceSummaryByNameAndSpaceStub cmd.RequiredArgs.ServiceInstance
      cmd.Config.TargetedSpace.GUID = (summary, warnings, none))
    (hType : summary.ServiceInstance.«Type» = ccv2.ManagedService) :
    cmd.run.1 = none ∧
      displayedTables cmd.run.2 =
        [[ [cmd.UI.TranslateText "name:", summary.ServiceInstance.Name],
           [cmd.UI.TranslateText "service:", summary.Service.Label],
           [cmd.UI.TranslateText "bound apps:", strings.Join summary.BoundApplications ", "],
           [cmd.UI.TranslateText "tags:", strings.Join summary.ServiceInstance.Tags ", "],
           [cmd.UI.TranslateText "plan:", summary.ServicePlan.Name],
           [cmd.UI.TranslateText "description:", summary.Service.Description],
           [cmd.UI.TranslateText "documentation:", summary.Service.DocumentationURL],
           [cmd.UI.TranslateText "dashboard:", summary.ServiceInstance.DashboardURL] ]] ∧
      ((∀ text, cmd.UI.TranslateText text = text) →
        displayedTables cmd.run.2 =
          [[ ["name:", summary.ServiceInstance.Name],
             ["service:", summary.Service.Label],
             ["bound apps:", strings.Join summary.BoundApplications ", "],
             ["tags:", strings.Join summary.ServiceInstance.Tags ", "],
             ["plan:", summary.ServicePlan.Name],
             ["description:", summary.Service.Description],
             ["documentation:", summary.Service.DocumentationURL],
             ["dashboard:", summary.ServiceInstance.DashboardURL] ]]) ∧
      strings.Join ["tag-1", "tag-2", "tag-3"] ", " = "tag-1, tag-2, tag-3" := by
  obtain ⟨hRet, hTables⟩ := displayedTables_summary cmd summary warnings hTarget hUser hGUID hQuery
  have hManaged : ccv2.ServiceInstance.Managed summary.ServiceInstance = true := by
    simp [ccv2.ServiceInstance.Managed, hType]
  refine ⟨hRet, ?_, ?_, by decide⟩
  · rw [hTables]
    simp [tableOf, hManaged, v2action.ServiceInstanceSummary.Name,
      v2action.ServiceInstanceSummary.Tags, v2action.ServiceInstanceSummary.DashboardURL]
  · intro hId
    rw [hTables]
    simp [tableOf, hManaged, hId, v2action.ServiceInstanceSummary.Name,
      v2action.ServiceInstanceSummary.Tags, v2action.ServiceInstanceSummary.DashboardURL]

theorem Execute_managed_table_witness :
    fixture.managed.SharedActor.CheckTargetStub true true = none ∧
      fixture.managed.Config.CurrentUserStub.2 = none ∧
      fixture.managed.GUID = false ∧
      fixture.managedSummary.ServiceInstance.«Type» = ccv2.ManagedService ∧
      fixture.managed.run.1 = none ∧
      displayedTables fixture.managed.run.2 =
        [[ ["name:", "some-service-instance"],
           ["service:", "some-service"],
           ["bound apps:", "app-1, app-2, app-3"],
           ["tags:", "tag-1, tag-2, tag-3"],
           ["plan:", "some-plan"],
           ["description:", "some-description"],
           ["documentation:", "some-docs-url"],
           ["dashboard:", "some-dashboard"] ]] :=
  ⟨rfl, rfl, rfl, rfl,
    (Execute_managed_table fixture.managed fixture.managedSummary
      ["get-service-instance-summary-warning-1", "get-service-instance-summary-warning-2"]
      rfl rfl rfl rfl rfl).1,
    (Execute_managed_table fixture.managed fixture.managedSummary
      ["get-service-instance-summary-warning-1", "get-service-instance-summary-warning-2"]
      rfl rfl rfl rfl rfl).2.2.1 (fun _ => rfl)⟩

/-- C5: when the summary lookup returns, without error, a summary whose `Type`
is the user-provided type, `Execute` succeeds and passes exactly one table to
`DisplayKeyValueTable`, of 3 rows in this order: name, the fixed text
`user-provided` as the service, bound apps joined by ", "; the tags, plan,
service and dashboard of the summary do not occur in it.  Labels and the fixed
text go through the UI's translation; whenever that translation keeps distinct
texts distinct, none of the labels `tags:`, `plan:`, `description:`,
`documentation:`, `dashboard:` is the label of a row. -/
theorem Execute_user_provided_table (cmd : ServiceCommand)
    (summary : v2action.ServiceInstanceSummary) (warnings : v2action.Warnings)
    (hTarget : cmd.SharedActor.CheckTargetStub true true = none)
    (hUser : cmd.Config.CurrentUserStub.2 = none)
    (hGUID : cmd.GUID = false)
    (hQuery : cmd.Actor.GetServiceInstanceSummaryByNameAndSpaceStub cmd.RequiredArgs.ServiceInstance
      cmd.Config.TargetedSpace.GUID = (summary, warnings, none))
    (hType : summary.ServiceInstance.«Type» = ccv2.UserProvidedService) :
    cmd.run.1 = none ∧
      displayedTables cmd.run.2 =
        [[ [cmd.UI.TranslateText "name:", summary.ServiceInstance.Name],
           [cmd.UI.TranslateText "service:", cmd.UI.TranslateText "user-provided"],
           [cmd.UI.TranslateText "bound apps:", strings.Join summary.BoundApplications ", "] ]] ∧
      ((∀ text, cmd.UI.TranslateText text = text) →
        displayedTables cmd.run.2 =
          [[ ["name:", summary.ServiceInstance.Name],
             ["service:", "user-provided"],
             ["bound apps:", strings.Join summary.BoundApplications ", "] ]]) ∧
      (Function.Injective cmd.UI.TranslateText →
        ∀ table ∈ displayedTables cmd.run.2, ∀ label ∈ managedOnlyLabels,
          some (cmd.UI.TranslateText label) ∉ rowLabels table) := by
  obtain ⟨hRet, hTables⟩ := displayedTables_summary cmd summary warnings hTarget hUser hGUID hQuery
  have hManaged : ccv2.ServiceInstance.Managed summary.ServiceInstance = false := by
    simp [ccv2.ServiceInstance.Managed, hType]
    decide
  have hTable : tableOf cmd.UI summary =
      [ [cmd.UI.TranslateText "name:", summary.ServiceInstance.Name],
        [cmd.UI.TranslateText "service:", cmd.UI.TranslateText "user-provided"],
        [cmd.UI.TranslateText "bound apps:", strings.Join summary.BoundApplications ", "] ] := by
    simp [tableOf, hManaged, v2action.ServiceInstanceSummary.Name]
  refine ⟨hRet, by rw [hTables, hTable], fun hId => by rw [hTables, hTable]; simp [hId], ?_⟩
  intro hInj table hMem label hLabel
  rw [hTables, hTable] at hMem
  simp only [List.mem_singleton] at hMem
  subst hMem
  simp only [managedOnlyLabels, List.mem_cons, List.mem_singleton, List.not_mem_nil, or_false]
    at hLabel
  simp only [rowLabels, List.map_cons, List.map_nil, List.head?_cons, List.mem_cons,
    List.mem_singleton, List.not_mem_nil, or_false, Option.some.injEq, hInj.eq_iff]
  rcases hLabel with h | h | h | h | h <;> subst h <;> decide

theorem Execute_user_provided_table_witness :
    fixture.userProvided.SharedActor.CheckTargetStub true true = none ∧
      fixture.userProvided.Config.CurrentUserStub.2 = none ∧
      fixture.userProvided.GUID = false ∧
      fixture.userProvidedSummary.ServiceInstance.«Type» = ccv2.UserProvidedService ∧
      fixture.userProvided.run.1 = none ∧
      displayedTables fixture.userProvided.run.2 =
        [[ ["name:", "some-service-instance"],
           ["service:", "user-provided"],
           ["bound apps:", "app-1, app-2, app-3"] ]] :=
  ⟨rfl, rfl, rfl, rfl,
    (Execute_user_provided_table fixture.userProvided fixture.userProvidedSummary
      ["get-service-instance-summary-warning-1", "get-service-instance-summary-warning-2"]
      rfl rfl rfl rfl rfl).1,
    (Execute_user_provided_table fixture.userProvided fixture.userProvidedSummary
      ["get-service-instance-summary-warning-1", "get-service-instance-summary-warning-2"]
      rfl rfl rfl rfl rfl).2.2.1 (fun _ => rfl)⟩

/-- C6: when the target check and the current-user lookup succeed, the log of
`Execute` starts with the target check and the user lookup, then the call
`DisplayTextWithFlavor` with the template of the status line and exactly the
four values instance name, org name, space name, user name, then
`DisplayNewline`; every other call, the query among them, comes later.  The
template with these values substituted reads
`Showing info of service n in org o / space s as u...`. -/
theorem Execute_status_line (cmd : ServiceCommand)
    (hTarget : cmd.SharedActor.CheckTargetStub true true = none)
    (hUser : cmd.Config.CurrentUserStub.2 = none) :
    (∃ rest : List Call,
        cmd.run.2 =
          [ Call.CheckTarget true true,
            Call.CurrentUser,
            Call.DisplayTextWithFlavor
              "Showing info of service {{.ServiceInstanceName}} in org {{.OrgName}} / space {{.SpaceName}} as {{.UserName}}..."
              [ ("ServiceInstanceName", cmd.RequiredArgs.ServiceInstance),
                ("OrgName", cmd.Config.TargetedOrganization.Name),
                ("SpaceName", cmd.Config.TargetedSpace.Name),
                ("UserName", cmd.Config.CurrentUserStub.1.Name) ],
            Call.DisplayNewline ] ++ rest ∧
          rest.countP Call.isQuery = 1) ∧
      ui.interpolate
          "Showing info of service {{.ServiceInstanceName}} in org {{.OrgName}} / space {{.SpaceName}} as {{.UserName}}..."
          [ ("ServiceInstanceName", cmd.RequiredArgs.ServiceInstance),
            ("OrgName", cmd.Config.TargetedOrganization.Name),
            ("SpaceName", cmd.Config.TargetedSpace.Name),
            ("UserName", cmd.Config.CurrentUserStub.1.Name) ] =
        "Showing info of service " ++ cmd.RequiredArgs.ServiceInstance ++ " in org " ++
          cmd.Config.TargetedOrganization.Name ++ " / space " ++ cmd.Config.TargetedSpace.Name ++
          " as " ++ cmd.Config.CurrentUserStub.1.Name ++ "..." := by
  refine ⟨?_, interpolate_status _ _ _ _⟩
  have hUser2 : cmd.Config.CurrentUserStub = (cmd.Config.CurrentUserStub.1, none) :=
    Prod.ext rfl hUser
  cases hGUID : cmd.GUID
  · obtain ⟨⟨summary, warnings, err⟩, hQuery⟩ :
        ∃ r, cmd.Actor.GetServiceInstanceSummaryByNameAndSpaceStub cmd.RequiredArgs.ServiceInstance
          cmd.Config.TargetedSpace.GUID = r := ⟨_, rfl⟩
    rw [run_summary cmd _ summary warnings err hTarget hUser2 hGUID hQuery]
    refine ⟨_, by simp only [preamble, statusCall, List.append_assoc]; rfl, ?_⟩
    cases err <;> simp [List.countP_cons, Call.isQuery]
  · obtain ⟨⟨serviceInstance, warnings, err⟩, hQuery⟩ :
        ∃ r, cmd.Actor.GetServiceInstanceByNameAndSpaceStub cmd.RequiredArgs.ServiceInstance
          cmd.Config.TargetedSpace.GUID = r := ⟨_, rfl⟩
    rw [run_guid cmd _ serviceInstance warnings err hTarget hUser2 hGUID hQuery]
    refine ⟨_, by simp only [preamble, statusCall, List.append_assoc]; rfl, ?_⟩
    cases err <;> simp [List.countP_cons, Call.isQuery]

theorem Execute_status_line_witness :
    fixture.guidFound.SharedActor.CheckTargetStub true true = none ∧
      fixture.guidFound.Config.CurrentUserStub.2 = none ∧
      ui.interpolate
          "Showing info of service {{.ServiceInstanceName}} in org {{.OrgName}} / space {{.SpaceName}} as {{.UserName}}..."
          [ ("ServiceInstanceName", "some-service-instance"),
            ("OrgName", "some-org"),
            ("SpaceName", "some-space"),
            ("UserName", "some-user") ] =
        "Showing info of service some-service-instance in org some-org / space some-space as some-user..." :=
  ⟨rfl, rfl, (Execute_status_line fixture.guidFound rfl rfl).2⟩

/-- C7, as amended: when the target check succeeds and `Config.CurrentUser`
returns an error `e`, `Execute` returns `shared.HandleError e` and has called
neither a query nor the UI.  When `e` is not one of the actor errors that the
translation recognises, this is `e` itself; the plain error
`get-user-error` is returned as it is, with its message. -/
theorem Execute_current_user_error (cmd : ServiceCommand) (e : error)
    (hTarget : cmd.SharedActor.CheckTargetStub true true = none)
    (hUser : cmd.Config.CurrentUserStub.2 = some e) :
    cmd.run.1 = some (shared.HandleError e) ∧
      cmd.run.2 = [Call.CheckTarget true true, Call.CurrentUser] ∧
      (e.isActorError = false → cmd.run.1 = some e) ∧
      (e = errors.New "get-user-error" →
        cmd.run.1 = some e ∧ e.Error = some "get-user-error") := by
  have hUser2 : cmd.Config.CurrentUserStub = (cmd.Config.CurrentUserStub.1, some e) :=
    Prod.ext rfl hUser
  rw [run_currentUser_error cmd _ e hTarget hUser2]
  refine ⟨rfl, rfl, fun h => by rw [HandleError_of_not_actor e h], fun h => ?_⟩
  subst h
  exact ⟨rfl, rfl⟩

theorem Execute_current_user_error_witness :
    fixture.currentUserFails.SharedActor.CheckTargetStub true true = none ∧
      fixture.currentUserFails.Config.CurrentUserStub.2 = some (errors.New "get-user-error") ∧
      fixture.currentUserFails.run.1 = some (errors.New "get-user-error") ∧
      (errors.New "get-user-error").Error = some "get-user-error" :=
  ⟨rfl, rfl,
    (Execute_current_user_error fixture.currentUserFails (errors.New "get-user-error")
      rfl rfl).2.2.2 rfl⟩

/-- C7 as stated fails: with a successful target check and a current-user
lookup that fails with the actor error `sharedaction.NotLoggedInError` for
`faceman`, `Execute` returns the user-facing
`translatableerror.NotLoggedInError`, which is not the error it was given. -/
theorem Execute_current_user_error_not_raw :
    fixture.currentUserNotLoggedIn.SharedActor.CheckTargetStub true true = none ∧
      fixture.currentUserNotLoggedIn.Config.CurrentUserStub.2 =
        some (error.sharedNotLoggedIn { BinaryName := "faceman" }) ∧
      fixture.currentUserNotLoggedIn.run.1 =
        some (error.translatableNotLoggedIn { BinaryName := "faceman" }) ∧
      fixture.currentUserNotLoggedIn.run.1 ≠
        some (error.sharedNotLoggedIn { BinaryName := "faceman" }) := by
  refine ⟨rfl, rfl, rfl, ?_⟩
  decide

/-- C8: under `--guid`, when `GetServiceInstanceByNameAndSpace` succeeds with an
instance of GUID `g`, `Execute` returns no error; the calls that write to the
output are, in order, the status line, the blank line and `DisplayText g`; no
table is displayed; the only other UI call is the display of the warnings,
which goes to the error sink. -/
theorem Execute_guid_output (cmd : ServiceCommand) (serviceInstance : v2action.ServiceInstance)
    (warnings : v2action.Warnings)
    (hTarget : cmd.SharedActor.CheckTargetStub true true = none)
    (hUser : cmd.Config.CurrentUserStub.2 = none)
    (hGUID : cmd.GUID = true)
    (hQuery : cmd.Actor.GetServiceInstanceByNameAndSpaceStub cmd.RequiredArgs.ServiceInstance
      cmd.Config.TargetedSpace.GUID = (serviceInstance, warnings, none)) :
    cmd.run.1 = none ∧
      cmd.run.2.filter Call.writesOut =
        [ Call.DisplayTextWithFlavor
            "Showing info of service {{.ServiceInstanceName}} in org {{.OrgName}} / space {{.SpaceName}} as {{.UserName}}..."
            [ ("ServiceInstanceName", cmd.RequiredArgs.ServiceInstance),
              ("OrgName", cmd.Config.TargetedOrganization.Name),
              ("SpaceName", cmd.Config.TargetedSpace.Name),
              ("UserName", cmd.Config.CurrentUserStub.1.Name) ],
          Call.DisplayNewline,
          Call.DisplayText serviceInstance.GUID ] ∧
      displayedTables cmd.run.2 = [] ∧
      (cmd.run.2.filter Call.isUI).filter (fun c => !c.writesOut) =
        [Call.DisplayWarnings warnings] := by
  have hUser2 : cmd.Config.CurrentUserStub = (cmd.Config.CurrentUserStub.1, none) :=
    Prod.ext rfl hUser
  rw [run_guid cmd _ serviceInstance warnings none hTarget hUser2 hGUID hQuery]
  simp [preamble, statusCall, displayedTables, Call.table?, Call.writesOut, Call.isUI,
    List.filter_cons, List.filterMap_cons]

theorem Execute_guid_output_witness :
    fixture.guidFound.SharedActor.CheckTargetStub true true = none ∧
      fixture.guidFound.Config.CurrentUserStub.2 = none ∧
      fixture.guidFound.GUID = true ∧
      fixture.guidFound.run.1 = none ∧
      fixture.guidFound.run.2.filter Call.writesOut =
        [ Call.DisplayTextWithFlavor
            "Showing info of service {{.ServiceInstanceName}} in org {{.OrgName}} / space {{.SpaceName}} as {{.UserName}}..."
            [ ("ServiceInstanceName", "some-service-instance"),
              ("OrgName", "some-org"),
              ("SpaceName", "some-space"),
              ("UserName", "some-user") ],
          Call.DisplayNewline,
          Call.DisplayText "some-service-instance-guid" ] :=
  ⟨rfl, rfl, rfl,
    (Execute_guid_output fixture.guidFound
      { fixture.zeroServiceInstance with
        GUID := "some-service-instance-guid", Name := "some-service-instance" }
      ["get-service-instance-warning"] rfl rfl rfl rfl).1,
    (Execute_guid_output fixture.guidFound
      { fixture.zeroServiceInstance with
        GUID := "some-service-instance-guid", Name := "some-service-instance" }
      ["get-service-instance-warning"] rfl rfl rfl rfl).2.1⟩

/-- C9: on either path, when the target check and the current-user lookup
succeed and the invoked query fails with
`v2action.ServiceInstanceNotFoundError` of GUID `g` and name `n`, `Execute`
returns `translatableerror.ServiceInstanceNotFoundError` with the same GUID and
name. -/
theorem Execute_not_found_error (cmd : ServiceCommand) (g n : String)
    (hTarget : cmd.SharedActor.CheckTargetStub true true = none)
    (hUser : cmd.Config.CurrentUserStub.2 = none) :
    (cmd.GUID = true →
        (cmd.Actor.GetServiceInstanceByNameAndSpaceStub cmd.RequiredArgs.ServiceInstance
            cmd.Config.TargetedSpace.GUID).2.2 =
          some (error.v2ServiceInstanceNotFound { GUID := g, Name := n }) →
        cmd.run.1 = some (error.translatableServiceInstanceNotFound { GUID := g, Name := n })) ∧
      (cmd.GUID = false →
        (cmd.Actor.GetServiceInstanceSummaryByNameAndSpaceStub cmd.RequiredArgs.ServiceInstance
            cmd.Config.TargetedSpace.GUID).2.2 =
          some (error.v2ServiceInstanceNotFound { GUID := g, Name := n }) →
        cmd.run.1 = some (error.translatableServiceInstanceNotFound { GUID := g, Name := n })) := by
  rw [run_query_result cmd hTarget hUser]
  constructor <;> intro hGUID hQuery <;> simp [queryOutcome, hGUID, hQuery, shared.HandleError]

theorem Execute_not_found_error_witness :
    fixture.guidNotFound.SharedActor.CheckTargetStub true true = none ∧
      fixture.guidNotFound.Config.CurrentUserStub.2 = none ∧
      fixture.summaryNotFound.SharedActor.CheckTargetStub true true = none ∧
      fixture.summaryNotFound.Config.CurrentUserStub.2 = none ∧
      fixture.guidNotFound.run.1 =
        some (error.translatableServiceInstanceNotFound
          { GUID := "non-existant-service-instance-guid", Name := "non-existant-service-instance" }) ∧
      fixture.summaryNotFound.run.1 =
        some (error.translatableServiceInstanceNotFound
          { GUID := "non-existant-service-instance-guid", Name := "non-existant-service-instance" }) :=
  ⟨rfl, rfl, rfl, rfl,
    (Execute_not_found_error fixture.guidNotFound "non-existant-service-instance-guid"
      "non-existant-service-instance" rfl rfl).1 rfl rfl,
    (Execute_not_found_error fixture.summaryNotFound "non-existant-service-instance-guid"
      "non-existant-service-instance" rfl rfl).2 rfl rfl⟩

/-- C10: on either path, when the target check and the current-user lookup
succeed and the invoked query fails with an error `e` that is not one of the
actor errors the translation recognises, `Execute` returns `e` itself; every
plain error made by `errors.New` is such an error. -/
theorem Execute_generic_error (cmd : ServiceCommand) (e : error)
    (hTarget : cmd.SharedActor.CheckTargetStub true true = none)
    (hUser : cmd.Config.CurrentUserStub.2 = none)
    (hGeneric : e.isActorError = false) :
    (cmd.GUID = true →
        (cmd.Actor.GetServiceInstanceByNameAndSpaceStub cmd.RequiredArgs.ServiceInstance
            cmd.Config.TargetedSpace.GUID).2.2 = some e →
        cmd.run.1 = some e) ∧
      (cmd.GUID = false →
        (cmd.Actor.GetServiceInstanceSummaryByNameAndSpaceStub cmd.RequiredArgs.ServiceInstance
            cmd.Config.TargetedSpace.GUID).2.2 = some e →
        cmd.run.1 = some e) ∧
      (∀ text : String, (errors.New text).isActorError = false) := by
  rw [run_query_result cmd hTarget hUser]
  refine ⟨?_, ?_, fun _ => rfl⟩ <;> intro hGUID hQuery <;>
    simp [queryOutcome, hGUID, hQuery, HandleError_of_not_actor e hGeneric]

theorem Execute_generic_error_witness :
    fixture.guidError.SharedActor.CheckTargetStub true true = none ∧
      fixture.guidError.Config.CurrentUserStub.2 = none ∧
      fixture.summaryError.SharedActor.CheckTargetStub true true = none ∧
      fixture.summaryError.Config.CurrentUserStub.2 = none ∧
      (errors.New "get-service-instance-error").isActorError = false ∧
      (errors.New "get-service-instance-summary-error").isActorError = false ∧
      fixture.guidError.run.1 = some (errors.New "get-service-instance-error") ∧
      fixture.summaryError.run.1 = some (errors.New "get-service-instance-summary-error") :=
  ⟨rfl, rfl, rfl, rfl, rfl, rfl,
    (Execute_generic_error fixture.guidError (errors.New "get-service-instance-error")
      rfl rfl rfl).1 rfl rfl,
    (Execute_generic_error fixture.summaryError (errors.New "get-service-instance-summary-error")
      rfl rfl rfl).2.1 rfl rfl⟩

/-- C11: when the target check and the current-user lookup succeed, the one
query that `Execute` invokes is called with the instance name of the command
line as its first argument and the GUID of the targeted space as its second:
the by-name lookup under `--guid`, the summary lookup otherwise. -/
theorem Execute_query_arguments (cmd : ServiceCommand)
    (hTarget : cmd.SharedActor.CheckTargetStub true true = none)
    (hUser : cmd.Config.CurrentUserStub.2 = none) :
    (cmd.GUID = true →
        cmd.run.2.filter Call.isQuery =
          [Call.GetServiceInstanceByNameAndSpace cmd.RequiredArgs.ServiceInstance
            cmd.Config.TargetedSpace.GUID]) ∧
      (cmd.GUID = false →
        cmd.run.2.filter Call.isQuery =
          [Call.GetServiceInstanceSummaryByNameAndSpace cmd.RequiredArgs.ServiceInstance
            cmd.Config.TargetedSpace.GUID]) := by
  have hUser2 : cmd.Config.CurrentUserStub = (cmd.Config.CurrentUserStub.1, none) :=
    Prod.ext rfl hUser
  constructor <;> intro hGUID
  · obtain ⟨⟨serviceInstance, warnings, err⟩, hQuery⟩ :
        ∃ r, cmd.Actor.GetServiceInstanceByNameAndSpaceStub cmd.RequiredArgs.ServiceInstance
          cmd.Config.TargetedSpace.GUID = r := ⟨_, rfl⟩
    rw [run_guid cmd _ serviceInstance warnings err hTarget hUser2 hGUID hQuery]
    cases err <;> simp [preamble, statusCall, List.filter_cons, Call.isQuery]
  · obtain ⟨⟨summary, warnings, err⟩, hQuery⟩ :
        ∃ r, cmd.Actor.GetServiceInstanceSummaryByNameAndSpaceStub cmd.RequiredArgs.ServiceInstance
          cmd.Config.TargetedSpace.GUID = r := ⟨_, rfl⟩
    rw [run_summary cmd _ summary warnings err hTarget hUser2 hGUID hQuery]
    cases err <;> simp [preamble, statusCall, List.filter_cons, Call.isQuery]

theorem Execute_query_arguments_witness :
    fixture.guidNotFound.SharedActor.CheckTargetStub true true = none ∧
      fixture.guidNotFound.Config.CurrentUserStub.2 = none ∧
      fixture.managed.SharedActor.CheckTargetStub true true = none ∧
      fixture.managed.Config.CurrentUserStub.2 = none ∧
      fixture.guidNotFound.Config.TargetedSpace =
        { GUID := "some-space-guid", Name := "some-space" } ∧
      fixture.guidNotFound.run.2.filter Call.isQuery =
        [Call.GetServiceInstanceByNameAndSpace "some-service-instance" "some-space-guid"] ∧
      fixture.managed.run.2.filter Call.isQuery =
        [Call.GetServiceInstanceSummaryByNameAndSpace "some-service-instance" "some-space-guid"] :=
  ⟨rfl, rfl, rfl, rfl, rfl,
    (Execute_query_arguments fixture.guidNotFound rfl rfl).1 rfl,
    (Execute_query_arguments fixture.managed rfl rfl).2 rfl⟩

/-- C12: for a managed summary returned without error the table always has the
8 rows with the labels in the fixed order, whatever fields are absent, and an
absent field gives an empty cell in its own row: empty bound applications,
empty tags, an empty description, documentation URL or dashboard URL each
leave the row in place with the empty string as its value. -/
theorem Execute_managed_empty_cells (cmd : ServiceCommand)
    (summary : v2action.ServiceInstanceSummary) (warnings : v2action.Warnings)
    (hTarget : cmd.SharedActor.CheckTargetStub true true = none)
    (hUser : cmd.Config.CurrentUserStub.2 = none)
    (hGUID : cmd.GUID = false)
    (hQuery : cmd.Actor.GetServiceInstanceSummaryByNameAndSpaceStub cmd.RequiredArgs.ServiceInstance
      cmd.Config.TargetedSpace.GUID = (summary, warnings, none))
    (hType : summary.ServiceInstance.«Type» = ccv2.ManagedService) :
    ∃ table : List (List String),
      displayedTables cmd.run.2 = [table] ∧
        table.length = 8 ∧
        rowLabels table =
          [ some (cmd.UI.TranslateText "name:"),
            some (cmd.UI.TranslateText "service:"),
            some (cmd.UI.TranslateText "bound apps:"),
            some (cmd.UI.TranslateText "tags:"),
            some (cmd.UI.TranslateText "plan:"),
            some (cmd.UI.TranslateText "description:"),
            some (cmd.UI.TranslateText "documentation:"),
            some (cmd.UI.TranslateText "dashboard:") ] ∧
        (summary.BoundApplications = [] →
          table[2]? = some [cmd.UI.TranslateText "bound apps:", ""]) ∧
        (summary.ServiceInstance.Tags = [] →
          table[3]? = some [cmd.UI.TranslateText "tags:", ""]) ∧
        (summary.Service.Description = "" →
          table[5]? = some [cmd.UI.TranslateText "description:", ""]) ∧
        (summary.Service.DocumentationURL = "" →
          table[6]? = some [cmd.UI.TranslateText "documentation:", ""]) ∧
        (summary.ServiceInstance.DashboardURL = "" →
          table[7]? = some [cmd.UI.TranslateText "dashboard:", ""]) := by
  obtain ⟨_, hTables⟩ := displayedTables_summary cmd summary warnings hTarget hUser hGUID hQuery
  have hManaged : ccv2.ServiceInstance.Managed summary.ServiceInstance = true := by
    simp [ccv2.ServiceInstance.Managed, hType]
  refine ⟨tableOf cmd.UI summary, hTables, ?_, ?_, ?_, ?_, ?_, ?_, ?_⟩
  · simp [tableOf, hManaged]
  · simp [tableOf, hManaged, rowLabels]
  · intro h
    simp [tableOf, hManaged, h, strings.Join]
  · intro h
    simp [tableOf, hManaged, v2action.ServiceInstanceSummary.Tags, h, strings.Join]
  · intro h
    simp [tableOf, hManaged, h]
  · intro h
    simp [tableOf, hManaged, h]
  · intro h
    simp [tableOf, hManaged, v2action.ServiceInstanceSummary.DashboardURL, h]

theorem Execute_managed_empty_cells_witness :
    fixture.bareManaged.SharedActor.CheckTargetStub true true = none ∧
      fixture.bareManaged.Config.CurrentUserStub.2 = none ∧
      fixture.bareManaged.GUID = false ∧
      fixture.bareManagedSummary.ServiceInstance.«Type» = ccv2.ManagedService ∧
      ∃ table : List (List String),
        displayedTables fixture.bareManaged.run.2 = [table] ∧
          table.length = 8 ∧
          table[3]? = some ["tags:", ""] :=
  ⟨rfl, rfl, rfl, rfl, by
    obtain ⟨table, hTables, hLength, _, _, hTags, _⟩ :=
      Execute_managed_empty_cells fixture.bareManaged fixture.bareManagedSummary [] rfl rfl rfl rfl rfl
    exact ⟨table, hTables, hLength, hTags rfl⟩⟩

/-- C13, as amended: when the target check and the current-user lookup succeed
and the summary lookup, run without `--guid`, returns a summary without error
(a user-provided instance in particular), `Execute` returns no error and the
first text it writes to the output is the line
`Showing info of service n in org o / space s as u...`. -/
theorem Execute_summary_status_text (cmd : ServiceCommand)
    (summary : v2action.ServiceInstanceSummary) (warnings : v2action.Warnings)
    (hTarget : cmd.SharedActor.CheckTargetStub true true = none)
    (hUser : cmd.Config.CurrentUserStub.2 = none)
    (hGUID : cmd.GUID = false)
    (hQuery : cmd.Actor.GetServiceInstanceSummaryByNameAndSpaceStub cmd.RequiredArgs.ServiceInstance
      cmd.Config.TargetedSpace.GUID = (summary, warnings, none)) :
    cmd.run.1 = none ∧
      (writtenTexts cmd.run.2).head? =
        some ("Showing info of service " ++ cmd.RequiredArgs.ServiceInstance ++ " in org " ++
          cmd.Config.TargetedOrganization.Name ++ " / space " ++ cmd.Config.TargetedSpace.Name ++
          " as " ++ cmd.Config.CurrentUserStub.1.Name ++ "...") := by
  have hUser2 : cmd.Config.CurrentUserStub = (cmd.Config.CurrentUserStub.1, none) :=
    Prod.ext rfl hUser
  rw [run_summary cmd _ summary warnings none hTarget hUser2 hGUID hQuery]
  refine ⟨rfl, ?_⟩
  simp [writtenTexts, preamble, statusCall, Call.outTexts, interpolate_status]

theorem Execute_summary_status_text_witness :
    fixture.userProvided.SharedActor.CheckTargetStub true true = none ∧
      fixture.userProvided.Config.CurrentUserStub.2 = none ∧
      fixture.userProvided.GUID = false ∧
      fixture.userProvidedSummary.ServiceInstance.«Type» = ccv2.UserProvidedService ∧
      fixture.userProvided.run.1 = none ∧
      (writtenTexts fixture.userProvided.run.2).head? =
        some "Showing info of service some-service-instance in org some-org / space some-space as some-user..." :=
  ⟨rfl, rfl, rfl, rfl,
    (Execute_summary_status_text fixture.userProvided fixture.userProvidedSummary
      ["get-service-instance-summary-warning-1", "get-service-instance-summary-warning-2"]
      rfl rfl rfl rfl).1,
    (Execute_summary_status_text fixture.userProvided fixture.userProvidedSummary
      ["get-service-instance-summary-warning-1", "get-service-instance-summary-warning-2"]
      rfl rfl rfl rfl).2⟩

/-- C13 as stated fails: for the user-provided instance `some-service-instance`
in org `some-org`, space `some-space`, as `some-user`, the command run without
`--guid` succeeds, and the texts it writes to the output are the status line
`Showing info of service ...`, the empty line and the cells of the 3-row
table; none of them contains the line `Getting service info for service
some-service-instance in org some-org / space some-space as some-user`. -/
theorem Execute_no_getting_service_info_line :
    fixture.userProvided.run.1 = none ∧
      writtenTexts fixture.userProvided.run.2 =
        [ "Showing info of service some-service-instance in org some-org / space some-space as some-user...",
          "",
          "name:", "some-service-instance",
          "service:", "user-provided",
          "bound apps:", "app-1, app-2, app-3" ] ∧
      ∀ text ∈ writtenTexts fixture.userProvided.run.2,
        strings.Contains text
          "Getting service info for service some-service-instance in org some-org / space some-space as some-user" =
            false := by
  refine ⟨rfl, by decide, ?_⟩
  decide

/-- C14: take two runs of the command without `--guid`, with the same
translation of texts, whose summary lookups return without error two summaries
of the same `Type`.  Then the displayed tables have the same number of rows
and the same sequence of row labels, whatever the names, tags, dashboard URLs,
plans, services and bound applications of the two summaries are. -/
theorem Execute_layout_by_type (cmd₁ cmd₂ : ServiceCommand)
    (summary₁ summary₂ : v2action.ServiceInstanceSummary) (warnings₁ warnings₂ : v2action.Warnings)
    (hTarget₁ : cmd₁.SharedActor.CheckTargetStub true true = none)
    (hUser₁ : cmd₁.Config.CurrentUserStub.2 = none)
    (hGUID₁ : cmd₁.GUID = false)
    (hQuery₁ : cmd₁.Actor.GetServiceInstanceSummaryByNameAndSpaceStub
      cmd₁.RequiredArgs.ServiceInstance cmd₁.Config.TargetedSpace.GUID = (summary₁, warnings₁, none))
    (hTarget₂ : cmd₂.SharedActor.CheckTargetStub true true = none)
    (hUser₂ : cmd₂.Config.CurrentUserStub.2 = none)
    (hGUID₂ : cmd₂.GUID = false)
    (hQuery₂ : cmd₂.Actor.GetServiceInstanceSummaryByNameAndSpaceStub
      cmd₂.RequiredArgs.ServiceInstance cmd₂.Config.TargetedSpace.GUID = (summary₂, warnings₂, none))
    (hUI : cmd₁.UI.TranslateText = cmd₂.UI.TranslateText)
    (hType : summary₁.ServiceInstance.«Type» = summary₂.ServiceInstance.«Type») :
    (displayedTables cmd₁.run.2).map List.length = (displayedTables cmd₂.run.2).map List.length ∧
      (displayedTables cmd₁.run.2).map rowLabels = (displayedTables cmd₂.run.2).map rowLabels := by
  obtain ⟨_, hTables₁⟩ :=
    displayedTables_summary cmd₁ summary₁ warnings₁ hTarget₁ hUser₁ hGUID₁ hQuery₁
  obtain ⟨_, hTables₂⟩ :=
    displayedTables_summary cmd₂ summary₂ warnings₂ hTarget₂ hUser₂ hGUID₂ hQuery₂
  have hManaged : ccv2.ServiceInstance.Managed summary₁.ServiceInstance =
      ccv2.ServiceInstance.Managed summary₂.ServiceInstance := by
    simp [ccv2.ServiceInstance.Managed, hType]
  rw [hTables₁, hTables₂]
  cases h : ccv2.ServiceInstance.Managed summary₂.ServiceInstance <;>
    simp [tableOf, hManaged, h, rowLabels, hUI]

theorem Execute_layout_by_type_witness :
    fixture.userProvided.SharedActor.CheckTargetStub true true = none ∧
      fixture.userProvided.Config.CurrentUserStub.2 = none ∧
      fixture.userProvided.GUID = false ∧
      fixture.filledUserProvided.SharedActor.CheckTargetStub true true = none ∧
      fixture.filledUserProvided.Config.CurrentUserStub.2 = none ∧
      fixture.filledUserProvided.GUID = false ∧
      fixture.userProvided.UI.TranslateText = fixture.filledUserProvided.UI.TranslateText ∧
      fixture.userProvidedSummary.ServiceInstance.«Type» =
        fixture.filledUserProvidedSummary.ServiceInstance.«Type» ∧
      fixture.userProvidedSummary.ServiceInstance.Tags ≠
        fixture.filledUserProvidedSummary.ServiceInstance.Tags ∧
      (displayedTables fixture.userProvided.run.2).map rowLabels =
        (displayedTables fixture.filledUserProvided.run.2).map rowLabels ∧
      (displayedTables fixture.filledUserProvided.run.2).map rowLabels =
        [[some "name:", some "service:", some "bound apps:"]] :=
  ⟨rfl, rfl, rfl, rfl, rfl, rfl, rfl, rfl, by decide,
    (Execute_layout_by_type fixture.userProvided fixture.filledUserProvided
      fixture.userProvidedSummary fixture.filledUserProvidedSummary
      ["get-service-instance-summary-warning-1", "get-service-instance-summary-warning-2"] []
      rfl rfl rfl rfl rfl rfl rfl rfl rfl rfl).2,
    rfl⟩

/-- C15: for a summary returned without error by the summary lookup, `Execute`
returns no error and the table has the 8 rows of the managed layout if and
only if the `Type` of the summary is the managed type.  For every other
`Type`, the empty `Type` of the zero value among them, the table is the 3-row
layout: name, the fixed text `user-provided` as the service, bound apps. -/
theorem Execute_layout_iff_managed (cmd : ServiceCommand)
    (summary : v2action.ServiceInstanceSummary) (warnings : v2action.Warnings)
    (hTarget : cmd.SharedActor.CheckTargetStub true true = none)
    (hUser : cmd.Config.CurrentUserStub.2 = none)
    (hGUID : cmd.GUID = false)
    (hQuery : cmd.Actor.GetServiceInstanceSummaryByNameAndSpaceStub cmd.RequiredArgs.ServiceInstance
      cmd.Config.TargetedSpace.GUID = (summary, warnings, none)) :
    cmd.run.1 = none ∧
      ((displayedTables cmd.run.2).map List.length = [8] ↔
        summary.ServiceInstance.«Type» = ccv2.ManagedService) ∧
      (summary.ServiceInstance.«Type» ≠ ccv2.ManagedService →
        displayedTables cmd.run.2 =
          [[ [cmd.UI.TranslateText "name:", summary.ServiceInstance.Name],
             [cmd.UI.TranslateText "service:", cmd.UI.TranslateText "user-provided"],
             [cmd.UI.TranslateText "bound apps:", strings.Join summary.BoundApplications ", "] ]]) := by
  obtain ⟨hRet, hTables⟩ := displayedTables_summary cmd summary warnings hTarget hUser hGUID hQuery
  refine ⟨hRet, ?_, ?_⟩
  · rw [hTables]
    by_cases hType : summary.ServiceInstance.«Type» = ccv2.ManagedService
    · simp [tableOf, ccv2.ServiceInstance.Managed, hType]
    · simp [tableOf, ccv2.ServiceInstance.Managed, hType]
  · intro hType
    rw [hTables]
    simp [tableOf, ccv2.ServiceInstance.Managed, hType, v2action.ServiceInstanceSummary.Name]

theorem Execute_layout_iff_managed_witness :
    fixture.zeroValue.SharedActor.CheckTargetStub true true = none ∧
      fixture.zeroValue.Config.CurrentUserStub.2 = none ∧
      fixture.zeroValue.GUID = false ∧
      fixture.zeroSummary.ServiceInstance.«Type» = "" ∧
      fixture.zeroSummary.ServiceInstance.«Type» ≠ ccv2.ManagedService ∧
      fixture.zeroSummary.ServiceInstance.«Type» ≠ ccv2.UserProvidedService ∧
      fixture.zeroValue.run.1 = none ∧
      displayedTables fixture.zeroValue.run.2 =
        [[ ["name:", ""], ["service:", "user-provided"], ["bound apps:", ""] ]] :=
  ⟨rfl, rfl, rfl, rfl, by decide, by decide,
    (Execute_layout_iff_managed fixture.zeroValue fixture.zeroSummary [] rfl rfl rfl rfl).1,
    (Execute_layout_iff_managed fixture.zeroValue fixture.zeroSummary [] rfl rfl rfl rfl).2.2
      (by decide)⟩

end cf
